import Mathlib

set_option autoImplicit false

/-
Shallow embedding of the trader decision-maker's bet-placement and redemption
behaviours (src/packages/valory/skills/decision_maker_abci/behaviours/
bet_placement.py and reedem.py, plus the payloads module).  External
collaborators (contract-encoding services, trade-history source, block-index
lookup) are modelled as response environments: every step wrapped in
`wait_for_condition_with_sleep` is retried until it succeeds, so the state at
the end of a run is a function of the responses with which each step finally
succeeded.
-/

namespace Trader

/-- A market question, as carried by a redeem candidate (redeem_info module):
its identifier bytes and its raw data. -/
structure Question where
  id : String
  data : String
deriving DecidableEq, Repr

/-- A conditional-tokens condition: identifier, index sets and outcome slot
count, as carried by a redeem candidate. -/
structure Condition where
  id : String
  index_sets : List Nat
  outcomeSlotCount : Nat
deriving DecidableEq, Repr

/-- The fixed-product market maker data referenced by a redeem candidate:
collateral token, condition, creation timestamp, the currently resolved
winning outcome index, template id and the underlying question. -/
structure FPMM where
  collateralToken : String
  condition : Condition
  creationTimestamp : Nat
  current_answer_index : Nat
  templateId : Nat
  question : Question
deriving DecidableEq, Repr

/-- One historical trade eligible for redemption (`RedeemInfo`): the market it
belongs to, the outcome the trader chose, the claimable amount and the trade's
transaction hash (the idempotency key). -/
structure RedeemInfo where
  fpmm : FPMM
  outcomeIndex : Nat
  claimable_amount : Nat
  transactionHash : String
deriving DecidableEq, Repr

/-- Modelled from the spec: `MultisendBatch` lives in the decision maker's
models module, which is not under src/; per the spec's data model it is the
call-batch entry `\x7btarget, payload bytes, value ≥ 0\x7d` with the value
defaulting to zero, exactly as both call sites construct it.  Lean reserves
the source's field name `to`, so the spec's name `target` is used for it. -/
structure MultisendBatch where
  target : String
  data : String
  value : Nat := 0
deriving DecidableEq, Repr

/-- Embedding of `RedeemBehaviour._clean_redeem_info` (reedem.py lines
227-238): once the batched `check_redeemed` lookup has delivered the payout
map, the candidate list is filtered only when the sum of all recorded payouts
is positive, and then a candidate is dropped exactly when its transaction hash
occurs among the payout map's keys.  The payout map is an association list
(insertion-ordered, unique keys) mirroring the Python dict. -/
def clean_redeem_info (redeem_info : List RedeemInfo)
    (payouts : List (String × Nat)) : List RedeemInfo :=
  let payout_so_far := (payouts.map Prod.snd).sum
  if 0 < payout_so_far then
    redeem_info.filter (fun info => !((payouts.map Prod.fst).contains info.transactionHash))
  else
    redeem_info

/-- The payout the map records for a transaction hash, zero when the hash is
absent.  This renders the spec's `P[c.txHash]` for the idempotency-filter
claim. -/
def recordedPayout (payouts : List (String × Nat)) (h : String) : Nat :=
  (payouts.lookup h).getD 0

/-- A losing-side example candidate used in concrete runs. -/
def exFpmm : FPMM :=
  { collateralToken := "col"
    condition := { id := "cond0", index_sets := [1, 2], outcomeSlotCount := 2 }
    creationTimestamp := 17
    current_answer_index := 0
    templateId := 2
    question := { id := "q0", data := "qdata" } }

/-- First example candidate: its trade hash is recorded in the example payout
map with a zero payout. -/
def exCand0 : RedeemInfo :=
  { fpmm := exFpmm, outcomeIndex := 0, claimable_amount := 5, transactionHash := "0xaaa" }

/-- Second example candidate: its trade hash carries a positive recorded
payout in the example payout map. -/
def exCand1 : RedeemInfo :=
  { fpmm := exFpmm, outcomeIndex := 0, claimable_amount := 7, transactionHash := "0xbbb" }

/-- Example payout map holding one zero-valued and one positive entry. -/
def exPayouts : List (String × Nat) := [("0xaaa", 0), ("0xbbb", 5)]

/-- C1 counterexample: candidate `exCand0` has a recorded payout of zero, so
the claim says the idempotency filter retains it; yet because the total payout
is positive and its hash is among the map's keys, `_clean_redeem_info` drops
it. -/
theorem C1_counterexample :
    recordedPayout exPayouts exCand0.transactionHash = 0 ∧
    exCand0 ∈ [exCand0, exCand1] ∧
    exCand0 ∉ clean_redeem_info [exCand0, exCand1] exPayouts := by
  decide

/-- C1 (amended): a candidate survives `_clean_redeem_info` iff it was among
the candidates and it is not the case that the payout map's total is positive
and the candidate's transaction hash is one of the map's keys; in particular
the filter keys on hash membership, not on the hash's own recorded payout
being positive. -/
theorem C1_clean_redeem_info_amended (C : List RedeemInfo) (P : List (String × Nat))
    (c : RedeemInfo) :
    c ∈ clean_redeem_info C P ↔
      c ∈ C ∧ ¬(0 < (P.map Prod.snd).sum ∧ c.transactionHash ∈ P.map Prod.fst) := by
  unfold clean_redeem_info
  by_cases h : 0 < (P.map Prod.snd).sum
  · simp [h, List.mem_filter]
  · simp [h]

/-- Modelled from the spec: the fetch status of the paged external sources
(market manager's graph tooling, not under src/); the spec's tri-state polling
contract in-progress / success / failure. -/
inductive FetchStatus where
  | IN_PROGRESS
  | SUCCESS
  | FAIL
deriving DecidableEq, Repr

/-- Constant `DEFAULT_FROM_BLOCK` (reedem.py line 54). -/
def DEFAULT_FROM_BLOCK : String := "earliest"

/-- The behaviour's `_from_block` field holds either a parsed block number or
a textual tag such as the `"earliest"` default (Python `Union[int, str]`). -/
inductive FromBlock where
  | block (n : Int)
  | tag (s : String)
deriving DecidableEq, Repr

/-- Embedding of the `from_block` setter (reedem.py lines 130-136): parse the
string as an integer; a parse failure falls back to `DEFAULT_FROM_BLOCK`. -/
def set_from_block (s : String) : FromBlock :=
  match s.toInt? with
  | some n => FromBlock.block n
  | none => FromBlock.tag DEFAULT_FROM_BLOCK

/-- Embedding of `RedeemBehaviour._get_block_number` (reedem.py lines
285-300).  `status` is the first non-in-progress fetch status the polling loop
observes and `blockId` the fetched block's "id" field, when present;
`from_block` is the behaviour's current from-block value.  The result pairs
the updated from-block with the step's boolean outcome. -/
def get_block_number (status : FetchStatus) (blockId : Option String)
    (from_block : FromBlock) : FromBlock × Bool :=
  if status = FetchStatus.SUCCESS then
    (set_from_block (blockId.getD DEFAULT_FROM_BLOCK), true)
  else
    (from_block, true)

/-- C3 counterexample: when the block-index lookup ends in failure,
`_get_block_number` does not report failure: it returns true, so the
surrounding retry wrapper treats the step as succeeded and the workflow
proceeds with the default from-block value. -/
theorem C3_counterexample :
    ¬((get_block_number FetchStatus.FAIL none (FromBlock.tag DEFAULT_FROM_BLOCK)).2 = false) := by
  decide

/-- C3 (amended): whenever the block-index lookup does not end in success,
`_get_block_number` still reports success (returns true) and leaves the
from-block value unchanged — initially the `"earliest"` default — so the
workflow proceeds with that default instead of retrying the step. -/
theorem C3_get_block_number_amended (status : FetchStatus) (blockId : Option String)
    (from_block : FromBlock) (h : status ≠ FetchStatus.SUCCESS) :
    get_block_number status blockId from_block = (from_block, true) := by
  simp [get_block_number, h]

/-- C3 witness: the amended theorem applied to a concrete failed lookup. -/
theorem C3_get_block_number_amended_witness :
    get_block_number FetchStatus.FAIL (some "42") (FromBlock.tag DEFAULT_FROM_BLOCK) =
      (FromBlock.tag DEFAULT_FROM_BLOCK, true) :=
  C3_get_block_number_amended FetchStatus.FAIL (some "42") (FromBlock.tag DEFAULT_FROM_BLOCK)
    (by decide)

/-- Modelled from the spec: `SAFE_GAS` is the fixed gas stipend constant
declared in the decision maker's base behaviour module, which is not under
src/.  The claims only rely on it being one fixed constant shared by the
hasher query and the emitted payload. -/
def SAFE_GAS : Nat := 0

/-- Modelled from the spec: `SafeOperation.DELEGATE_CALL.value` of the gnosis
safe contract package (not under src/), the delegate-call operation kind sent
with the hash request and embedded in the payload. -/
def DELEGATE_CALL : Nat := 1

/-- Constant `_ETHER_VALUE` (bet_placement.py line 54): hardcoded to zero because no
native currency is sent when betting. -/
def ETHER_VALUE : Nat := 0

/-- Constant `ZERO_HEX` (reedem.py lines 52-53): the zero hash without its "0x"
prefix, used as the parent collection id of every redeem call. -/
def ZERO_HEX : String :=
  "0000000000000000000000000000000000000000000000000000000000000000"

/-- The query `get_raw_safe_transaction_hash` receives (bet_placement.py
lines 242-254): target address, native value, encoded batch, gas and
operation kind. -/
structure SafeTxQuery where
  to_address : String
  value : Nat
  data : String
  safe_tx_gas : Nat
  operation : Nat
deriving DecidableEq, Repr

/-- Configuration the redemption behaviour reads from `self.params` and its
fixed contract addresses. -/
structure RedeemParams where
  dust_threshold : Nat
  redeeming_batch_size : Nat
  realitio_proxy_address : String
  realitio_address : String
  conditional_tokens_address : String
  multisend_address : String
deriving DecidableEq, Repr

/-- The responses with which the redemption run's external calls eventually
succeed, keyed by exactly the parameters the source sends with each request.
Every such call sits behind `wait_for_condition_with_sleep`, which retries
until success, so one run's observable outcome is a function of these final
responses. -/
structure RedeemEnv where
  check_resolved : String → Bool
  build_resolve_tx : String → Nat → String → Nat → String
  build_claim_winnings : FromBlock → String → String
  build_redeem_positions_tx : String → String → String → List Nat → String
  get_tx_data : List MultisendBatch → String
  get_raw_safe_transaction_hash : SafeTxQuery → String

/-- Embedding of `_is_winning_position` (reedem.py lines 240-244). -/
def is_winning_position (c : RedeemInfo) : Bool :=
  c.outcomeIndex == c.fpmm.current_answer_index

/-- Embedding of `_is_dust` (reedem.py lines 246-248). -/
def is_dust (p : RedeemParams) (c : RedeemInfo) : Bool :=
  c.claimable_amount < p.dust_threshold

/-- The batch entry `_build_resolve_data` (reedem.py lines 260-283) appends
once it succeeds: the realitio proxy as target, the encoded resolve call as
data. -/
def resolve_entry (env : RedeemEnv) (p : RedeemParams) (c : RedeemInfo) : MultisendBatch :=
  { target := p.realitio_proxy_address
    data := env.build_resolve_tx c.fpmm.question.id c.fpmm.templateId c.fpmm.question.data
      c.fpmm.condition.outcomeSlotCount }

/-- The batch entry `_build_claim_data` (reedem.py lines 302-323) appends.
The from-block it sends is the behaviour's current one, which stays at the
`DEFAULT_FROM_BLOCK` initial value for the whole run: `_get_block_number` is
invoked nowhere in this module's redeem flow. -/
def claim_entry (env : RedeemEnv) (p : RedeemParams) (c : RedeemInfo) : MultisendBatch :=
  { target := p.realitio_address
    data := env.build_claim_winnings (FromBlock.tag DEFAULT_FROM_BLOCK) c.fpmm.question.id }

/-- The batch entry `_build_redeem_data` (reedem.py lines 325-345) appends:
the conditional tokens contract as target, the encoded redeem-positions call
(zero parent collection id) as data. -/
def redeem_entry (env : RedeemEnv) (p : RedeemParams) (c : RedeemInfo) : MultisendBatch :=
  { target := p.conditional_tokens_address
    data := env.build_redeem_positions_tx c.fpmm.collateralToken ZERO_HEX c.fpmm.condition.id
      c.fpmm.condition.index_sets }

/-- Embedding of `_prepare_single_redeem` (reedem.py lines 347-359): ask
`check_resolved` for the candidate's condition; when the market is not yet
resolved prepend the resolve build step; then run the build steps in order,
each appending its entry to the batch. -/
def prepare_single_redeem (env : RedeemEnv) (p : RedeemParams) (c : RedeemInfo)
    (batches : List MultisendBatch) : List MultisendBatch :=
  let steps : List (List MultisendBatch → List MultisendBatch) :=
    (if env.check_resolved c.fpmm.condition.id then []
     else [fun bs => bs ++ [resolve_entry env p c]]) ++
    [fun bs => bs ++ [claim_entry env p c], fun bs => bs ++ [redeem_entry env p c]]
  steps.foldl (fun bs step => step bs) batches

/-- The calls one processed candidate contributes to the batch, in append
order: the optional resolve entry, then the claim entry, then the redeem
entry. -/
def candidate_calls (env : RedeemEnv) (p : RedeemParams) (c : RedeemInfo) :
    List MultisendBatch :=
  (if env.check_resolved c.fpmm.condition.id then [] else [resolve_entry env p c]) ++
    [claim_entry env p c, redeem_entry env p c]

/-- Lemma: `_prepare_single_redeem` appends exactly the candidate's calls, in
order, after the existing batch. -/
theorem prepare_single_redeem_eq (env : RedeemEnv) (p : RedeemParams) (c : RedeemInfo)
    (batches : List MultisendBatch) :
    prepare_single_redeem env p c batches = batches ++ candidate_calls env p c := by
  unfold prepare_single_redeem candidate_calls
  cases h : env.check_resolved c.fpmm.condition.id <;> simp [h]

/-- Per-run mutable scratch of the redemption behaviour that the candidate
loop updates: the accumulated batch and the expected winnings. -/
structure RedeemState where
  multisend_batches : List MultisendBatch
  expected_winnings : Nat
deriving DecidableEq, Repr

/-- Embedding of `_process_candidate` (reedem.py lines 361-372): a
non-winning or dust candidate changes nothing and reports false; otherwise
the candidate's calls are appended and its claimable amount added to the
expected winnings. -/
def process_candidate (env : RedeemEnv) (p : RedeemParams) (c : RedeemInfo)
    (st : RedeemState) : RedeemState × Bool :=
  if !is_winning_position c || is_dust p c then
    (st, false)
  else
    ({ multisend_batches := prepare_single_redeem env p c st.multisend_batches
       expected_winnings := st.expected_winnings + c.claimable_amount }, true)

/-- Embedding of the candidate loop of `_prepare_safe_tx` (reedem.py lines
400-410): candidates are visited in discovery order; a candidate reporting
false is skipped; after a winning non-dust candidate the loop breaks when the
batch length equals `redeeming_batch_size` exactly.  Returns the final state,
the winnings-found flag and the candidates the break left unvisited. -/
def redeem_candidate_loop (env : RedeemEnv) (p : RedeemParams) :
    List RedeemInfo → RedeemState → Bool → RedeemState × Bool × List RedeemInfo
  | [], st, winnings_found => (st, winnings_found, [])
  | c :: rest, st, winnings_found =>
    let r := process_candidate env p c st
    if r.2 = false then
      redeem_candidate_loop env p rest r.1 winnings_found
    else if r.1.multisend_batches.length = p.redeeming_batch_size then
      (r.1, true, rest)
    else
      redeem_candidate_loop env p rest r.1 true

/-- The candidate loop started from the behaviour's freshly initialized
state, as `_prepare_safe_tx` runs it. -/
def redeem_loop_run (env : RedeemEnv) (p : RedeemParams) (redeem_info : List RedeemInfo) :
    RedeemState × Bool × List RedeemInfo :=
  redeem_candidate_loop env p redeem_info
    { multisend_batches := [], expected_winnings := 0 } false

/-- Drop a leading "0x", when present: the first two characters are compared
against "0x" and removed on a match. -/
def strip0x (s : String) : String :=
  if s.take 2 = "0x" then s.drop 2 else s

/-- Modelled from the spec: `hash_payload_to_hex` of the transaction
settlement skill is not under src/ (only its call site is).  The spec fixes
the emitted payload as the concatenation, in a fixed order, of the safe
transaction hash, the native value, the gas stipend, the target address, the
operation marker and the encoded batch, with every "0x" textual prefix
stripped before concatenation; the numeric components are rendered in decimal
here, since only the order and the stripping are relied upon. -/
def hash_payload_to_hex (safe_tx_hash : String) (ether_value : Nat) (safe_tx_gas : Nat)
    (to_address : String) (data : String) (operation : Nat) : String :=
  strip0x safe_tx_hash ++ toString ether_value ++ toString safe_tx_gas ++
    strip0x to_address ++ toString operation ++ strip0x data

/-- What one call of `_prepare_safe_tx` (reedem.py lines 374-426) produces:
the final scratch state, the optional tx hex, the queries sent to the
multisend encoder and the safe hasher (`none` when never invoked) and the
candidates the loop left unvisited. -/
structure PrepareResult where
  state : RedeemState
  tx_hex : Option String
  encode_query : Option (List MultisendBatch)
  hash_query : Option SafeTxQuery
  remaining : List RedeemInfo
deriving DecidableEq, Repr

/-- The multisend encoder's response for the redemption batch, with its first
two characters (the "0x") removed; the encode and hash steps live on the base
behaviour (not under src/), and the spec fixes their mechanics as identical
to `_build_multisend_data` and `_build_safe_tx_hash` of bet_placement.py
(lines 210-274), which is what is embedded here. -/
def redeem_multisend_data (env : RedeemEnv) (p : RedeemParams)
    (redeem_info : List RedeemInfo) : String :=
  (env.get_tx_data (redeem_loop_run env p redeem_info).1.multisend_batches).drop 2

/-- The query the redemption run sends to the safe hasher: the multisend
contract as target, zero native value, the encoded batch, the fixed gas
stipend and the delegate-call operation kind. -/
def redeem_hash_query (env : RedeemEnv) (p : RedeemParams)
    (redeem_info : List RedeemInfo) : SafeTxQuery :=
  { to_address := p.multisend_address
    value := ETHER_VALUE
    data := redeem_multisend_data env p redeem_info
    safe_tx_gas := SAFE_GAS
    operation := DELEGATE_CALL }

/-- Embedding of `_prepare_safe_tx` (reedem.py lines 374-426): run the
candidate loop; when no winnings were found return no hex and skip the encode
and hash steps entirely; otherwise encode the batch, strip the response's
first two characters, hash it with the fixed parameters and emit the hex. -/
def redeem_prepare_safe_tx (env : RedeemEnv) (p : RedeemParams)
    (redeem_info : List RedeemInfo) : PrepareResult :=
  let r := redeem_loop_run env p redeem_info
  if r.2.1 = false then
    { state := r.1, tx_hex := none, encode_query := none, hash_query := none,
      remaining := r.2.2 }
  else
    { state := r.1
      tx_hex := some (hash_payload_to_hex
        ((env.get_raw_safe_transaction_hash (redeem_hash_query env p redeem_info)).drop 2)
        ETHER_VALUE SAFE_GAS p.multisend_address (redeem_multisend_data env p redeem_info)
        DELEGATE_CALL)
      encode_query := some r.1.multisend_batches
      hash_query := some (redeem_hash_query env p redeem_info)
      remaining := r.2.2 }

/-- Modelled from the spec: `MultisigTxPayload` is declared in the decision
maker's payloads module; its declaration is not under src/ (only its two
constructor call sites are).  The spec fixes the settlement tuple as
(signer-identity, submitter-marker-or-none, payload-hex-or-none); the third
component carries a `none` default, which the two-positional-argument
bet-placement call site requires to be well-formed. -/
structure MultisigTxPayload where
  sender : String
  tx_submitter : Option String
  tx_hash : Option String := none
deriving DecidableEq, Repr

/-- Observable outcome of one workflow run: the emitted payload, the
accumulated batch, and the queries sent to the multisend encoder and the safe
hasher (`none` when the corresponding step was never invoked). -/
structure RunOutcome where
  payload : MultisigTxPayload
  multisend_batches : List MultisendBatch
  encode_query : Option (List MultisendBatch)
  hash_query : Option SafeTxQuery
deriving DecidableEq, Repr

/-- Embedding of `_get_redeem_info` (reedem.py lines 158-182): the fetched
page chunks (`none` for a page that yielded nothing) are accumulated in
order, and when the final fetch status is not SUCCESS the whole candidate
list is emptied. -/
def get_redeem_info (chunks : List (Option (List RedeemInfo)))
    (final_status : FetchStatus) : List RedeemInfo :=
  let fetched := chunks.foldl (fun acc chunk => acc ++ chunk.getD []) []
  if final_status = FetchStatus.SUCCESS then fetched else []

/-- Embedding of `RedeemBehaviour.async_act` (reedem.py lines 428-442) from
the point where the candidates and the payout map are in hand: clean the
candidates, prepare the safe tx, and construct the three-positional-argument
payload whose submitter marker is the matching round's id exactly when a tx
hex was produced. -/
def redeem_async_act (env : RedeemEnv) (p : RedeemParams) (fetched : List RedeemInfo)
    (payouts : List (String × Nat)) (agent round_id : String) : RunOutcome :=
  let info := clean_redeem_info fetched payouts
  let r := redeem_prepare_safe_tx env p info
  let tx_submitter := if r.tx_hex.isSome then some round_id else none
  { payload := { sender := agent, tx_submitter := tx_submitter, tx_hash := r.tx_hex }
    multisend_batches := r.state.multisend_batches
    encode_query := r.encode_query
    hash_query := r.hash_query }

/-- Configuration of one bet-placement run: the sampled bet's collateral
token and market maker address, the externally supplied investment amount
(`params.get_bet_amount(confidence)`), the voted outcome index and the
multisend contract address. -/
structure BetParams where
  collateralToken : String
  market_maker_address : String
  investment_amount : Nat
  outcome_index : Nat
  multisend_address : String
deriving DecidableEq, Repr

/-- The responses with which the bet-placement run's external calls
eventually succeed, keyed by the parameters each request carries. -/
structure BetEnv where
  balance : Nat
  build_approval_tx : String → Nat → String
  calc_buy_amount : Nat → Nat → Nat
  get_buy_data : Nat → Nat → Nat → String
  get_tx_data : List MultisendBatch → String
  get_raw_safe_transaction_hash : SafeTxQuery → String

/-- The batch a sufficient-balance bet run accumulates: `_build_approval_tx`
(bet_placement.py lines 126-151) appends the approval entry, then
`_calc_buy_amount` (lines 153-177) stores the quoted amount, then
`_build_buy_tx` (lines 179-208) appends the buy entry. -/
def bet_batches (env : BetEnv) (p : BetParams) : List MultisendBatch :=
  let approval : MultisendBatch :=
    { target := p.collateralToken
      data := env.build_approval_tx p.market_maker_address p.investment_amount }
  let buy_amount := env.calc_buy_amount p.investment_amount p.outcome_index
  let buy : MultisendBatch :=
    { target := p.market_maker_address
      data := env.get_buy_data p.investment_amount p.outcome_index buy_amount }
  [approval, buy]

/-- Embedding of `_build_multisend_data` (bet_placement.py lines 210-240):
the encoder's response string with its first two characters (the "0x")
removed. -/
def bet_multisend_data (env : BetEnv) (p : BetParams) : String :=
  (env.get_tx_data (bet_batches env p)).drop 2

/-- The query `_build_safe_tx_hash` (bet_placement.py lines 242-254) sends to
the safe: the multisend contract as target, zero native value, the encoded
batch, the fixed gas stipend and the delegate-call operation kind. -/
def bet_safe_tx_query (env : BetEnv) (p : BetParams) : SafeTxQuery :=
  { to_address := p.multisend_address
    value := ETHER_VALUE
    data := bet_multisend_data env p
    safe_tx_gas := SAFE_GAS
    operation := DELEGATE_CALL }

/-- Step `_build_safe_tx_hash` (bet_placement.py lines 264-274) stores the hash
response with its first two characters (the "0x") removed. -/
def bet_safe_tx_hash (env : BetEnv) (p : BetParams) : String :=
  (env.get_raw_safe_transaction_hash (bet_safe_tx_query env p)).drop 2

/-- Embedding of `_prepare_safe_tx` (bet_placement.py lines 276-294): run the
five build steps and emit `hash_payload_to_hex` over the stored hash, the
zero value, the gas stipend, the multisend address, the encoded batch and the
delegate-call marker. -/
def bet_prepare_safe_tx (env : BetEnv) (p : BetParams) : String :=
  hash_payload_to_hex (bet_safe_tx_hash env p) ETHER_VALUE SAFE_GAS p.multisend_address
    (bet_multisend_data env p) DELEGATE_CALL

/-- Embedding of `BetPlacementBehaviour.async_act` (bet_placement.py lines
296-305) with `sufficient_balance` (lines 86-89): when the fetched balance
covers the investment amount the safe tx is prepared and its hex passed as
the payload's second positional argument; otherwise the hex stays `none` and
no further step runs.  The payload constructor receives exactly two
positional arguments, so the third field keeps its default. -/
def bet_async_act (env : BetEnv) (p : BetParams) (agent : String) : RunOutcome :=
  if p.investment_amount ≤ env.balance then
    { payload := { sender := agent, tx_submitter := some (bet_prepare_safe_tx env p) }
      multisend_batches := bet_batches env p
      encode_query := some (bet_batches env p)
      hash_query := some (bet_safe_tx_query env p) }
  else
    { payload := { sender := agent, tx_submitter := none }
      multisend_batches := []
      encode_query := none
      hash_query := none }

/-- Example redemption environment: no market resolved yet, fixed encoded
responses. -/
def exEnv : RedeemEnv :=
  { check_resolved := fun _ => false
    build_resolve_tx := fun _ _ _ _ => "aa01"
    build_claim_winnings := fun _ _ => "bb02"
    build_redeem_positions_tx := fun _ _ _ _ => "cc03"
    get_tx_data := fun _ => "0xdd04"
    get_raw_safe_transaction_hash := fun _ => "0xee05" }

/-- Example redemption environment in which every market is already
resolved, so each candidate contributes two entries. -/
def exEnvResolved : RedeemEnv :=
  { exEnv with check_resolved := fun _ => true }

/-- Example parameters: dust threshold one, batch size capped at two
entries. -/
def exParams : RedeemParams :=
  { dust_threshold := 1
    redeeming_batch_size := 2
    realitio_proxy_address := "0xproxy"
    realitio_address := "0xrealitio"
    conditional_tokens_address := "0xconditional"
    multisend_address := "0xmultisend" }

/-- A non-winning example candidate: its chosen outcome differs from the
market's current answer. -/
def exLoser : RedeemInfo :=
  { fpmm := exFpmm, outcomeIndex := 1, claimable_amount := 9, transactionHash := "0xccc" }

/-- C2 counterexample: with the entry cap configured at two, a single winning
non-dust candidate on an unresolved market appends three calls; the loop's
equality test (three versus two) does not fire, so the accumulated batch holds
three entries and exceeds the configured maximum, refuting the claim that the
count never exceeds the cap. -/
theorem C2_counterexample :
    ¬((redeem_prepare_safe_tx exEnv exParams [exCand0]).state.multisend_batches.length ≤
      exParams.redeeming_batch_size) := by
  decide

/-- C2 (amended): the candidate loop stops early — leaving candidates
unvisited — only when, after a processed candidate's calls were appended, the
number of accumulated batch entries equals the configured
`redeeming_batch_size` exactly; a candidate whose three appended calls jump
over that exact value does not stop the iteration, so the entry count can
exceed the configured maximum. -/
theorem C2_batch_cap_amended (env : RedeemEnv) (p : RedeemParams) (cs : List RedeemInfo)
    (st : RedeemState) (wf : Bool)
    (h : (redeem_candidate_loop env p cs st wf).2.2 ≠ []) :
    (redeem_candidate_loop env p cs st wf).1.multisend_batches.length =
      p.redeeming_batch_size := by
  induction cs generalizing st wf with
  | nil => simp [redeem_candidate_loop] at h
  | cons c rest ih =>
    rw [redeem_candidate_loop] at h ⊢
    by_cases h1 : (process_candidate env p c st).2 = false
    · simp only [h1, if_pos rfl] at h ⊢
      exact ih _ _ h
    · simp only [if_neg h1] at h ⊢
      by_cases h2 :
          (process_candidate env p c st).1.multisend_batches.length = p.redeeming_batch_size
      · simp only [if_pos h2] at h ⊢
        exact h2
      · simp only [if_neg h2] at h ⊢
        exact ih _ _ h

/-- C2 witness: with every market already resolved a processed candidate
appends two calls, reaching the cap of two exactly, so the loop breaks with a
candidate left unvisited and the batch holds exactly the configured maximum. -/
theorem C2_batch_cap_amended_witness :
    (redeem_candidate_loop exEnvResolved exParams [exCand0, exCand1]
      { multisend_batches := [], expected_winnings := 0 } false).1.multisend_batches.length =
      exParams.redeeming_batch_size :=
  C2_batch_cap_amended exEnvResolved exParams [exCand0, exCand1]
    { multisend_batches := [], expected_winnings := 0 } false (by decide)

/-- A candidate that is non-winning or dust leaves the state untouched and
reports false. -/
theorem process_candidate_skip (env : RedeemEnv) (p : RedeemParams) (c : RedeemInfo)
    (st : RedeemState) (h : is_winning_position c = false ∨ is_dust p c = true) :
    process_candidate env p c st = (st, false) := by
  unfold process_candidate
  rcases h with h | h <;> simp [h]

/-- When every candidate is non-winning or dust the loop changes nothing:
state and flag come back as they went in and no candidate is left
unvisited. -/
theorem redeem_loop_all_skipped (env : RedeemEnv) (p : RedeemParams) (cs : List RedeemInfo)
    (st : RedeemState) (wf : Bool)
    (h : ∀ c ∈ cs, is_winning_position c = false ∨ is_dust p c = true) :
    redeem_candidate_loop env p cs st wf = (st, wf, []) := by
  induction cs generalizing st wf with
  | nil => rfl
  | cons c rest ih =>
    rw [redeem_candidate_loop]
    have hc : process_candidate env p c st = (st, false) :=
      process_candidate_skip env p c st (h c (by simp))
    simp only [hc, if_pos rfl]
    exact ih st wf (fun x hx => h x (by simp [hx]))

/-- C4: with an insufficient balance the bet-placement run emits a payload
with no hex anywhere and never invokes the multisend encoder or the safe
hasher; with no winning non-dust candidate surviving the idempotency filter
the redemption run does the same: its payload's hash field is `none` and the
encode and hash steps are never invoked on the empty batch. -/
theorem C4_no_action_no_encode (benv : BetEnv) (bp : BetParams) (agent : String)
    (renv : RedeemEnv) (rp : RedeemParams) (fetched : List RedeemInfo)
    (payouts : List (String × Nat)) (ragent round_id : String)
    (hbal : benv.balance < bp.investment_amount)
    (hno : ∀ c ∈ clean_redeem_info fetched payouts,
      is_winning_position c = false ∨ is_dust rp c = true) :
    (bet_async_act benv bp agent).payload =
      { sender := agent, tx_submitter := none, tx_hash := none } ∧
    (bet_async_act benv bp agent).encode_query = none ∧
    (bet_async_act benv bp agent).hash_query = none ∧
    (redeem_async_act renv rp fetched payouts ragent round_id).payload.tx_hash = none ∧
    (redeem_async_act renv rp fetched payouts ragent round_id).encode_query = none ∧
    (redeem_async_act renv rp fetched payouts ragent round_id).hash_query = none := by
  have hb : ¬(bp.investment_amount ≤ benv.balance) := by omega
  have hloop :
      redeem_loop_run renv rp (clean_redeem_info fetched payouts) =
        ({ multisend_batches := [], expected_winnings := 0 }, false, []) :=
    redeem_loop_all_skipped renv rp _ _ _ hno
  refine ⟨?_, ?_, ?_, ?_, ?_, ?_⟩ <;>
    simp [bet_async_act, hb, redeem_async_act, redeem_prepare_safe_tx, hloop]

/-- Example bet-placement environment: a balance of 200 and fixed encoded
responses. -/
def exBetEnv : BetEnv :=
  { balance := 200
    build_approval_tx := fun _ _ => "ad06"
    calc_buy_amount := fun _ _ => 3
    get_buy_data := fun _ _ _ => "bd07"
    get_tx_data := fun _ => "0xcd08"
    get_raw_safe_transaction_hash := fun _ => "0xef09" }

/-- Example bet-placement environment whose balance of 100 falls short of the
example investment amount. -/
def exBetEnvPoor : BetEnv :=
  { exBetEnv with balance := 100 }

/-- Example bet-placement parameters: an investment amount of 150. -/
def exBetParams : BetParams :=
  { collateralToken := "0xcollateral"
    market_maker_address := "0xmarket"
    investment_amount := 150
    outcome_index := 0
    multisend_address := "0xmultisend" }

/-- C4 witness: a concrete run with balance 100 short of the investment
amount 150 on the bet side and a single non-winning candidate on the
redemption side. -/
theorem C4_no_action_no_encode_witness :
    (bet_async_act exBetEnvPoor exBetParams "agent").payload =
      { sender := "agent", tx_submitter := none, tx_hash := none } ∧
    (bet_async_act exBetEnvPoor exBetParams "agent").encode_query = none ∧
    (bet_async_act exBetEnvPoor exBetParams "agent").hash_query = none ∧
    (redeem_async_act exEnv exParams [exLoser] [] "agent2" "round").payload.tx_hash = none ∧
    (redeem_async_act exEnv exParams [exLoser] [] "agent2" "round").encode_query = none ∧
    (redeem_async_act exEnv exParams [exLoser] [] "agent2" "round").hash_query = none :=
  C4_no_action_no_encode exBetEnvPoor exBetParams "agent" exEnv exParams [exLoser] []
    "agent2" "round" (by decide) (by decide)

/-- C5: a successfully built bet-placement batch is exactly the approval
entry followed by the buy entry; and the calls one redemption candidate
appends are the resolve entry, then the claim entry, then the redeem entry
when its market is not already resolved, and only the claim entry then the
redeem entry — no resolve entry — when it is. -/
theorem C5_entry_ordering (benv : BetEnv) (bp : BetParams) (agent : String)
    (renv : RedeemEnv) (rp : RedeemParams) (c : RedeemInfo) (bs : List MultisendBatch)
    (hbal : bp.investment_amount ≤ benv.balance) :
    (bet_async_act benv bp agent).multisend_batches =
      [{ target := bp.collateralToken
         data := benv.build_approval_tx bp.market_maker_address bp.investment_amount },
       { target := bp.market_maker_address
         data := benv.get_buy_data bp.investment_amount bp.outcome_index
           (benv.calc_buy_amount bp.investment_amount bp.outcome_index) }] ∧
    (renv.check_resolved c.fpmm.condition.id = false →
      prepare_single_redeem renv rp c bs =
        bs ++ [resolve_entry renv rp c, claim_entry renv rp c, redeem_entry renv rp c]) ∧
    (renv.check_resolved c.fpmm.condition.id = true →
      prepare_single_redeem renv rp c bs =
        bs ++ [claim_entry renv rp c, redeem_entry renv rp c]) := by
  refine ⟨?_, ?_, ?_⟩
  · simp [bet_async_act, hbal, bet_batches]
  · intro h
    rw [prepare_single_redeem_eq]
    simp [candidate_calls, h]
  · intro h
    rw [prepare_single_redeem_eq]
    simp [candidate_calls, h]

/-- C5 witness: the ordering theorem at the concrete example run whose
balance of 200 covers the investment amount of 150. -/
theorem C5_entry_ordering_witness :
    (bet_async_act exBetEnv exBetParams "agent").multisend_batches =
      [{ target := exBetParams.collateralToken
         data := exBetEnv.build_approval_tx exBetParams.market_maker_address
           exBetParams.investment_amount },
       { target := exBetParams.market_maker_address
         data := exBetEnv.get_buy_data exBetParams.investment_amount exBetParams.outcome_index
           (exBetEnv.calc_buy_amount exBetParams.investment_amount
             exBetParams.outcome_index) }] ∧
    (exEnv.check_resolved exCand0.fpmm.condition.id = false →
      prepare_single_redeem exEnv exParams exCand0 [] =
        [] ++ [resolve_entry exEnv exParams exCand0, claim_entry exEnv exParams exCand0,
          redeem_entry exEnv exParams exCand0]) ∧
    (exEnv.check_resolved exCand0.fpmm.condition.id = true →
      prepare_single_redeem exEnv exParams exCand0 [] =
        [] ++ [claim_entry exEnv exParams exCand0, redeem_entry exEnv exParams exCand0]) :=
  C5_entry_ordering exBetEnv exBetParams "agent" exEnv exParams exCand0 [] (by decide)

/-- Stripping "0x" coincides with dropping the first two characters on any
string that carries the prefix. -/
theorem strip0x_eq_drop (s : String) (h : s.take 2 = "0x") :
    strip0x s = s.drop 2 := by
  simp [strip0x, h]

/-- C6: a successful run sends the safe hasher exactly the fixed parameters —
zero native value, the `SAFE_GAS` stipend, the multisend contract as target,
the delegate-call operation kind — over the "0x"-stripped encoded batch, and
emits the hex built by `hash_payload_to_hex` from the "0x"-stripped hash, the
zero value, the gas stipend, the multisend target, the operation kind and the
"0x"-stripped encoded batch; on the bet-placement side and on the redemption
side alike. -/
theorem C6_fixed_hash_params (benv : BetEnv) (bp : BetParams) (agent : String)
    (renv : RedeemEnv) (rp : RedeemParams) (info : List RedeemInfo)
    (hbal : bp.investment_amount ≤ benv.balance)
    (hbms : (benv.get_tx_data (bet_batches benv bp)).take 2 = "0x")
    (hbh : (benv.get_raw_safe_transaction_hash (bet_safe_tx_query benv bp)).take 2 = "0x")
    (hwf : (redeem_loop_run renv rp info).2.1 = true)
    (hrms : (renv.get_tx_data (redeem_loop_run renv rp info).1.multisend_batches).take 2 =
      "0x")
    (hrh : (renv.get_raw_safe_transaction_hash (redeem_hash_query renv rp info)).take 2 =
      "0x") :
    (bet_async_act benv bp agent).hash_query =
      some { to_address := bp.multisend_address, value := 0,
             data := strip0x (benv.get_tx_data (bet_batches benv bp)),
             safe_tx_gas := SAFE_GAS, operation := DELEGATE_CALL } ∧
    (bet_async_act benv bp agent).payload.tx_submitter =
      some (hash_payload_to_hex
        (strip0x (benv.get_raw_safe_transaction_hash (bet_safe_tx_query benv bp)))
        0 SAFE_GAS bp.multisend_address
        (strip0x (benv.get_tx_data (bet_batches benv bp))) DELEGATE_CALL) ∧
    (redeem_prepare_safe_tx renv rp info).hash_query =
      some { to_address := rp.multisend_address, value := 0,
             data := strip0x (renv.get_tx_data
               (redeem_loop_run renv rp info).1.multisend_batches),
             safe_tx_gas := SAFE_GAS, operation := DELEGATE_CALL } ∧
    (redeem_prepare_safe_tx renv rp info).tx_hex =
      some (hash_payload_to_hex
        (strip0x (renv.get_raw_safe_transaction_hash (redeem_hash_query renv rp info)))
        0 SAFE_GAS rp.multisend_address
        (strip0x (renv.get_tx_data (redeem_loop_run renv rp info).1.multisend_batches))
        DELEGATE_CALL) := by
  rw [strip0x_eq_drop _ hbms, strip0x_eq_drop _ hbh, strip0x_eq_drop _ hrms,
    strip0x_eq_drop _ hrh]
  have hwf' : ¬((redeem_loop_run renv rp info).2.1 = false) := by simp [hwf]
  refine ⟨?_, ?_, ?_, ?_⟩ <;>
    simp [bet_async_act, hbal, bet_safe_tx_query, bet_multisend_data, bet_prepare_safe_tx,
      bet_safe_tx_hash, redeem_prepare_safe_tx, hwf', redeem_hash_query,
      redeem_multisend_data, ETHER_VALUE]

/-- C6 witness: the fixed-parameter theorem at the concrete example runs,
whose encoder and hasher responses carry the "0x" prefix. -/
theorem C6_fixed_hash_params_witness :
    (bet_async_act exBetEnv exBetParams "agent").hash_query =
      some { to_address := exBetParams.multisend_address, value := 0,
             data := strip0x (exBetEnv.get_tx_data (bet_batches exBetEnv exBetParams)),
             safe_tx_gas := SAFE_GAS, operation := DELEGATE_CALL } ∧
    (bet_async_act exBetEnv exBetParams "agent").payload.tx_submitter =
      some (hash_payload_to_hex
        (strip0x (exBetEnv.get_raw_safe_transaction_hash
          (bet_safe_tx_query exBetEnv exBetParams)))
        0 SAFE_GAS exBetParams.multisend_address
        (strip0x (exBetEnv.get_tx_data (bet_batches exBetEnv exBetParams))) DELEGATE_CALL) ∧
    (redeem_prepare_safe_tx exEnv exParams [exCand0]).hash_query =
      some { to_address := exParams.multisend_address, value := 0,
             data := strip0x (exEnv.get_tx_data
               (redeem_loop_run exEnv exParams [exCand0]).1.multisend_batches),
             safe_tx_gas := SAFE_GAS, operation := DELEGATE_CALL } ∧
    (redeem_prepare_safe_tx exEnv exParams [exCand0]).tx_hex =
      some (hash_payload_to_hex
        (strip0x (exEnv.get_raw_safe_transaction_hash
          (redeem_hash_query exEnv exParams [exCand0])))
        0 SAFE_GAS exParams.multisend_address
        (strip0x (exEnv.get_tx_data
          (redeem_loop_run exEnv exParams [exCand0]).1.multisend_batches))
        DELEGATE_CALL) :=
  C6_fixed_hash_params exBetEnv exBetParams "agent" exEnv exParams [exCand0]
    (by decide) (by decide) (by decide) (by decide) (by decide) (by decide)

/-- C7: a redemption candidate has no calls built and nothing appended
exactly when its chosen outcome index differs from the market's current
winning-outcome index or its claimable amount falls below the dust threshold;
otherwise its calls are appended to the batch and its claimable amount is
added to the expected winnings. -/
theorem C7_candidate_eligibility (env : RedeemEnv) (p : RedeemParams) (c : RedeemInfo)
    (st : RedeemState) :
    ((is_winning_position c = false ∨ is_dust p c = true) →
      process_candidate env p c st = (st, false)) ∧
    (is_winning_position c = true → is_dust p c = false →
      process_candidate env p c st =
        ({ multisend_batches := st.multisend_batches ++ candidate_calls env p c
           expected_winnings := st.expected_winnings + c.claimable_amount }, true)) := by
  constructor
  · exact process_candidate_skip env p c st
  · intro hw hd
    unfold process_candidate
    simp [hw, hd, prepare_single_redeem_eq]

/-- C7 witness: the eligibility theorem applied to a concrete non-winning
candidate and to a concrete winning non-dust candidate. -/
theorem C7_candidate_eligibility_witness :
    process_candidate exEnv exParams exLoser { multisend_batches := [], expected_winnings := 0 } =
      ({ multisend_batches := [], expected_winnings := 0 }, false) ∧
    process_candidate exEnv exParams exCand0 { multisend_batches := [], expected_winnings := 0 } =
      ({ multisend_batches := [] ++ candidate_calls exEnv exParams exCand0
         expected_winnings := 0 + exCand0.claimable_amount }, true) :=
  ⟨(C7_candidate_eligibility exEnv exParams exLoser
      { multisend_batches := [], expected_winnings := 0 }).1 (by decide),
   (C7_candidate_eligibility exEnv exParams exCand0
      { multisend_batches := [], expected_winnings := 0 }).2 (by decide) (by decide)⟩

/-- C8: when the paged trade-history discovery does not end with success
status, `_get_redeem_info` empties the candidate set for the run, and running
the redemption preparation on that empty set accumulates no batch entry and
produces no transaction hex. -/
theorem C8_fetch_failure_fail_safe (chunks : List (Option (List RedeemInfo)))
    (status : FetchStatus) (env : RedeemEnv) (p : RedeemParams)
    (h : status ≠ FetchStatus.SUCCESS) :
    get_redeem_info chunks status = [] ∧
    (redeem_prepare_safe_tx env p (get_redeem_info chunks status)).state.multisend_batches =
      [] ∧
    (redeem_prepare_safe_tx env p (get_redeem_info chunks status)).tx_hex = none := by
  have h0 : get_redeem_info chunks status = [] := by
    simp [get_redeem_info, h]
  rw [h0]
  refine ⟨rfl, ?_, ?_⟩ <;>
    simp [redeem_prepare_safe_tx, redeem_loop_run, redeem_candidate_loop]

/-- C8 witness: a failed discovery over one fetched page holding a winning
candidate still redeems nothing. -/
theorem C8_fetch_failure_fail_safe_witness :
    get_redeem_info [some [exCand0]] FetchStatus.FAIL = [] ∧
    (redeem_prepare_safe_tx exEnv exParams
      (get_redeem_info [some [exCand0]] FetchStatus.FAIL)).state.multisend_batches = [] ∧
    (redeem_prepare_safe_tx exEnv exParams
      (get_redeem_info [some [exCand0]] FetchStatus.FAIL)).tx_hex = none :=
  C8_fetch_failure_fail_safe [some [exCand0]] FetchStatus.FAIL exEnv exParams (by decide)

/-- C9: two redemption runs over the same candidate set, the same payout map
and agreeing external responses — the same resolution answers, the same built
call data, the same encoder output and the same hasher output — produce the
same run outcome: identical batch contents, identical queries and an
identical payload, hence an identical safe transaction hash and hex. -/
theorem C9_rerun_deterministic (env1 env2 : RedeemEnv) (p : RedeemParams)
    (fetched : List RedeemInfo) (payouts : List (String × Nat)) (agent round_id : String)
    (h1 : ∀ x, env1.check_resolved x = env2.check_resolved x)
    (h2 : ∀ a b c d, env1.build_resolve_tx a b c d = env2.build_resolve_tx a b c d)
    (h3 : ∀ a b, env1.build_claim_winnings a b = env2.build_claim_winnings a b)
    (h4 : ∀ a b c d,
      env1.build_redeem_positions_tx a b c d = env2.build_redeem_positions_tx a b c d)
    (h5 : ∀ bs, env1.get_tx_data bs = env2.get_tx_data bs)
    (h6 : ∀ q, env1.get_raw_safe_transaction_hash q = env2.get_raw_safe_transaction_hash q) :
    redeem_async_act env1 p fetched payouts agent round_id =
      redeem_async_act env2 p fetched payouts agent round_id := by
  obtain ⟨a1, a2, a3, a4, a5, a6⟩ := env1
  obtain ⟨b1, b2, b3, b4, b5, b6⟩ := env2
  have e1 : a1 = b1 := funext h1
  have e2 : a2 = b2 :=
    funext fun w => funext fun x => funext fun y => funext fun z => h2 w x y z
  have e3 : a3 = b3 := funext fun w => funext fun x => h3 w x
  have e4 : a4 = b4 :=
    funext fun w => funext fun x => funext fun y => funext fun z => h4 w x y z
  have e5 : a5 = b5 := funext h5
  have e6 : a6 = b6 := funext h6
  subst e1
  subst e2
  subst e3
  subst e4
  subst e5
  subst e6
  rfl

/-- C9 witness: the determinism theorem applied to two literally equal
example runs. -/
theorem C9_rerun_deterministic_witness :
    redeem_async_act exEnv exParams [exCand0, exCand1] exPayouts "agent" "round" =
      redeem_async_act exEnv exParams [exCand0, exCand1] exPayouts "agent" "round" :=
  C9_rerun_deterministic exEnv exEnv exParams [exCand0, exCand1] exPayouts "agent" "round"
    (fun _ => rfl) (fun _ _ _ _ => rfl) (fun _ _ => rfl) (fun _ _ _ _ => rfl)
    (fun _ => rfl) (fun _ => rfl)

/-- C10: the two workflows build the same payload type with different
positional arity.  The bet-placement call passes two positional arguments, so
its tx-hash field always keeps the `none` default and its payload hex — when
one is produced — occupies the second constructor position, the one the
redemption call fills with the submitter marker; the redemption call passes
three positional arguments and its submitter marker is non-`none` exactly
when its payload hex is non-`none`. -/
theorem C10_payload_positional (benv : BetEnv) (bp : BetParams) (agent : String)
    (renv : RedeemEnv) (rp : RedeemParams) (fetched : List RedeemInfo)
    (payouts : List (String × Nat)) (ragent round_id : String) :
    (bet_async_act benv bp agent).payload.tx_hash = none ∧
    (bet_async_act benv bp agent).payload.tx_submitter =
      (if bp.investment_amount ≤ benv.balance then some (bet_prepare_safe_tx benv bp)
       else none) ∧
    (redeem_async_act renv rp fetched payouts ragent round_id).payload.tx_submitter =
      (if (redeem_prepare_safe_tx renv rp (clean_redeem_info fetched payouts)).tx_hex.isSome
       then some round_id else none) ∧
    ((redeem_async_act renv rp fetched payouts ragent round_id).payload.tx_submitter.isSome =
      (redeem_async_act renv rp fetched payouts ragent round_id).payload.tx_hash.isSome) := by
  refine ⟨?_, ?_, rfl, ?_⟩
  · by_cases h : bp.investment_amount ≤ benv.balance <;> simp [bet_async_act, h]
  · by_cases h : bp.investment_amount ≤ benv.balance <;> simp [bet_async_act, h]
  · simp only [redeem_async_act]
    cases h : (redeem_prepare_safe_tx renv rp (clean_redeem_info fetched payouts)).tx_hex <;>
      simp [h]

end Trader
